import Mathlib

/-!
A shallow embedding of the simulation core of the arcade defense game
(src/src/App.tsx, src/src/constants.ts, and the type declarations).

Modelling conventions:
* JavaScript numbers are modelled as exact rationals (`Rat`); the score and
  the level, which only ever hold natural numbers, are modelled as `Nat`.
* `Math.sqrt` is modelled by `Rat.sqrt`, which agrees with the real square
  root on perfect squares of rationals; the general theorems below do not
  depend on the value of the square root, and every concrete evaluation is
  made at a point whose distances are perfect squares.
* Division by zero yields `0` in `Rat` (JavaScript would produce `NaN`);
  the one place where the source divides by a possibly-zero distance is
  analysed separately (the gravity-pull branch).
* String ids (used only as React keys) and the unused `ammoCost` local are
  omitted; every other field of the data model is kept.
* `Math.random()` enters the tick only through rocket spawning; the tick
  function takes the outcome of the spawn step (`Option Rocket`) as an
  explicit parameter, an injectable random source.
-/

namespace XXF

/-- 2D point in the 800 x 600 logical space (src/unnamed/part_000, `Point`). -/
structure Point where
  x : Rat
  y : Rat
  deriving DecidableEq, Repr

/-- Enemy projectile (`Rocket` in the source). -/
structure Rocket where
  start : Point
  target : Point
  pos : Point
  progress : Rat
  speed : Rat
  deriving DecidableEq, Repr

/-- Player interceptor (`PlayerMissile` in the source). -/
structure PlayerMissile where
  start : Point
  target : Point
  pos : Point
  progress : Rat
  speed : Rat
  originBatteryIndex : Nat
  isGravityBomb : Bool
  deriving DecidableEq, Repr

/-- Explosion (`Explosion` in the source). `life` is carried but never read
by the simulation logic, exactly as in the source. -/
structure Explosion where
  pos : Point
  radius : Rat
  maxRadius : Rat
  life : Rat
  isExpanding : Bool
  deriving DecidableEq, Repr

/-- City (`City` in the source). -/
structure City where
  pos : Point
  isDestroyed : Bool
  deriving DecidableEq, Repr

/-- Defense battery (`Battery` in the source). -/
structure Battery where
  pos : Point
  missiles : Nat
  maxMissiles : Nat
  isDestroyed : Bool
  deriving DecidableEq, Repr

/-- Game status (`GameStatus` in the source). -/
inductive GameStatus where
  | START
  | PLAYING
  | WON
  | LOST
  deriving DecidableEq, Repr

/-- Aggregate game state (`GameState` in the source). -/
structure GameState where
  score : Nat
  status : GameStatus
  cities : List City
  batteries : List Battery
  rockets : List Rocket
  playerMissiles : List PlayerMissile
  explosions : List Explosion
  level : Nat
  deriving DecidableEq, Repr

/-! Constants from src/src/constants.ts. -/

def GAME_WIDTH : Rat := 800
def GAME_HEIGHT : Rat := 600
def ROCKET_SPEED_BASE : Rat := 0.0007
def PLAYER_MISSILE_SPEED : Rat := 0.025
def EXPLOSION_MAX_RADIUS : Rat := 55
def EXPLOSION_GROWTH_SPEED : Rat := 0.06
def EXPLOSION_DECAY_SPEED : Rat := 0.015
def SCORE_PER_ROCKET : Nat := 20
def WIN_SCORE : Nat := 1000
def BATTERY_CONFIGS : List (Rat × Nat) := [(40, 30), (400, 60), (760, 30)]
def CITY_COUNT : Nat := 6

/-- `INITIAL_STATE` (App.tsx lines 32-51): score 0, status START,
6 cities, 3 batteries, empty entity lists, level 50. -/
def INITIAL_STATE : GameState :=
  { score := 0
    status := GameStatus.START
    cities := (List.range CITY_COUNT).map fun i =>
      { pos := { x := 120 + (i : Rat) * 110 + (if i > 2 then 40 else 0),
                 y := GAME_HEIGHT - 20 }
        isDestroyed := false }
    batteries := BATTERY_CONFIGS.map fun config =>
      { pos := { x := config.1, y := GAME_HEIGHT - 30 }
        missiles := config.2
        maxMissiles := config.2
        isDestroyed := false }
    rockets := []
    playerMissiles := []
    explosions := []
    level := 50 }

/-! ### Motion and impact (App.tsx, `update` step 2 and step 3) -/

/-- One motion step of a rocket: `r.progress += r.speed` and the
re-interpolated position (App.tsx lines 252-254). -/
def moveRocket (r : Rocket) : Rocket :=
  let progress := r.progress + r.speed
  { r with
    progress := progress
    pos := { x := r.start.x + (r.target.x - r.start.x) * progress
             y := r.start.y + (r.target.y - r.start.y) * progress } }

/-- Mark every still-alive city within horizontal distance < 20 of the
impact point destroyed (App.tsx lines 259-261). -/
def destroyCities (cs : List City) (tx : Rat) : List City :=
  cs.map fun c =>
    if ¬ c.isDestroyed ∧ |c.pos.x - tx| < 20 then { c with isDestroyed := true } else c

/-- Mark every still-alive battery within horizontal distance < 20 of the
impact point destroyed (App.tsx lines 262-264). -/
def destroyBatteries (bs : List Battery) (tx : Rat) : List Battery :=
  bs.map fun b =>
    if ¬ b.isDestroyed ∧ |b.pos.x - tx| < 20 then { b with isDestroyed := true } else b

/-- The explosion pushed when a rocket reaches its target
(App.tsx lines 266-273). -/
def impactExplosion (p : Point) : Explosion :=
  { pos := p, radius := 0, maxRadius := EXPLOSION_MAX_RADIUS, life := 1, isExpanding := true }

/-- Step 2 of `update` (App.tsx lines 250-275): advance every rocket; a
rocket whose progress reaches 1 destroys nearby cities/batteries, is
removed, and pushes an impact explosion.  The source iterates the array
from the last index down to 0, so the tail of the list is processed first
and the head last; surviving rockets keep their relative order and the
explosions are pushed in processing order. -/
def updateRockets :
    List Rocket → List City → List Battery → List Explosion →
    List Rocket × List City × List Battery × List Explosion
  | [], cs, bs, es => ([], cs, bs, es)
  | r :: rest, cs, bs, es =>
    let (rest', cs', bs', es') := updateRockets rest cs bs es
    let m := moveRocket r
    if 1 ≤ m.progress then
      (rest', destroyCities cs' m.target.x, destroyBatteries bs' m.target.x,
       es' ++ [impactExplosion m.target])
    else
      (m :: rest', cs', bs', es')

/-- One motion step of a player missile (App.tsx lines 280-282). -/
def moveMissile (m : PlayerMissile) : PlayerMissile :=
  let progress := m.progress + m.speed
  { m with
    progress := progress
    pos := { x := m.start.x + (m.target.x - m.start.x) * progress
             y := m.start.y + (m.target.y - m.start.y) * progress } }

/-- The explosion pushed when a player missile reaches its target: doubled
max radius for a gravity bomb (App.tsx lines 285-292). -/
def missileExplosion (m : PlayerMissile) : Explosion :=
  { pos := m.target
    radius := 0
    maxRadius := if m.isGravityBomb then EXPLOSION_MAX_RADIUS * 2 else EXPLOSION_MAX_RADIUS
    life := 1
    isExpanding := true }

/-- Step 3 of `update` (App.tsx lines 278-295): advance every player
missile; a missile whose progress reaches 1 is removed and pushes its
explosion.  Same reverse iteration order as the rockets. -/
def updateMissiles :
    List PlayerMissile → List Explosion → List PlayerMissile × List Explosion
  | [], es => ([], es)
  | m :: rest, es =>
    let (rest', es') := updateMissiles rest es
    let m' := moveMissile m
    if 1 ≤ m'.progress then (rest', es' ++ [missileExplosion m'])
    else (m' :: rest', es')

/-! ### Explosion / area-effect resolution (App.tsx, `update` step 4) -/

/-- A gravity explosion is recognised purely by `maxRadius` exceeding the
standard radius (App.tsx line 301). -/
def isGravityExplosion (e : Explosion) : Bool :=
  EXPLOSION_MAX_RADIUS < e.maxRadius

/-- Radius evolution of one explosion (App.tsx lines 303-312): expansion
adds `EXPLOSION_GROWTH_SPEED * maxRadius` and flips to contraction once the
radius reaches `maxRadius`; contraction subtracts
`EXPLOSION_DECAY_SPEED * maxRadius` and the explosion is removed (`none`)
the moment the radius reaches 0. -/
def evolveExplosion (e : Explosion) : Option Explosion :=
  if e.isExpanding then
    let radius := e.radius + EXPLOSION_GROWTH_SPEED * e.maxRadius
    some { e with radius := radius, isExpanding := decide (radius < e.maxRadius) }
  else
    let radius := e.radius - EXPLOSION_DECAY_SPEED * e.maxRadius
    if radius ≤ 0 then none else some { e with radius := radius }

/-- `dist = Math.sqrt(dx ** 2 + dy ** 2)` (App.tsx lines 317-319), the
distance from rocket `r` to the center of explosion `e`. -/
def rocketDist (e : Explosion) (r : Rocket) : Rat :=
  Rat.sqrt ((r.pos.x - e.pos.x) ^ 2 + (r.pos.y - e.pos.y) ^ 2)

/-- The gravity-pull branch condition `isGravity && dist < e.radius * 2`
(App.tsx line 321).  Note the source has no guard for `dist = 0`. -/
def gravityPullTaken (e : Explosion) (r : Rocket) : Bool :=
  isGravityExplosion e && decide (rocketDist e r < e.radius * 2)

/-- The gravity pull applied to one rocket (App.tsx lines 321-326): a
displacement of magnitude `((2r - d) / (2r)) * 2` along the unit vector
toward the center.  The source divides `dx` and `dy` by `dist` with no
zero guard; in this `Rat` model `x / 0 = 0`, where JavaScript yields NaN. -/
def pullRocket (e : Explosion) (r : Rocket) : Rocket :=
  if gravityPullTaken e r then
    let dx := r.pos.x - e.pos.x
    let dy := r.pos.y - e.pos.y
    let dist := rocketDist e r
    let force := (e.radius * 2 - dist) / (e.radius * 2) * 2
    { r with pos := { x := r.pos.x - dx / dist * force, y := r.pos.y - dy / dist * force } }
  else r

/-- The kill test `dist < e.radius` (App.tsx line 328).  `dist` was
computed at the top of the loop body, before the pull, so the test reads
the distance of the PRE-pull position. -/
def rocketHit (e : Explosion) (r : Rocket) : Bool :=
  rocketDist e r < e.radius

/-- The secondary explosion spawned at a killed rocket's last position,
0.8 x the standard max radius (App.tsx lines 331-338). -/
def secondaryExplosion (p : Point) : Explosion :=
  { pos := p, radius := 0, maxRadius := EXPLOSION_MAX_RADIUS * 0.8, life := 1,
    isExpanding := true }

/-- The inner rocket loop of step 4 (App.tsx lines 315-340) for one
explosion `e`: each rocket in pull range is displaced, then the kill test
(on the distance computed before the pull) removes the rocket, credits
`SCORE_PER_ROCKET`, and spawns a secondary explosion at the rocket's
post-pull position.  The source iterates from the last rocket down to the
first, so the tail is processed before the head and the spawned explosions
are pushed in that order. -/
def processRockets (e : Explosion) :
    List Rocket → Nat → List Rocket × Nat × List Explosion
  | [], score => ([], score, [])
  | r :: rest, score =>
    let (rest', score', news) := processRockets e rest score
    let r' := pullRocket e r
    if rocketHit e r then
      (rest', score' + SCORE_PER_ROCKET, news ++ [secondaryExplosion r'.pos])
    else
      (r' :: rest', score', news)

/-- Step 4 of `update` (App.tsx lines 297-341): every explosion present at
the start of the step evolves its radius (and may disappear), then acts on
the current rocket list.  Explosions pushed during the step (the
secondaries) are beyond the initial loop bound and are not processed this
tick; they are returned separately and appended after the survivors.
The source iterates from the last explosion down to the first. -/
def updateExplosions :
    List Explosion → List Rocket → Nat →
    List Explosion × List Explosion × List Rocket × Nat
  | [], rockets, score => ([], [], rockets, score)
  | e :: rest, rockets, score =>
    let w := updateExplosions rest rockets score
    match evolveExplosion e with
    | none => w
    | some e' =>
      let p := processRockets e' w.2.2.1 w.2.2.2
      (e' :: w.1, w.2.1 ++ p.2.2, p.1, p.2.1)

/-! ### The tick (App.tsx, `update`, lines 232-365) -/

/-- One tick of the simulation with `spawn` the outcome of the random
spawn step (step 1, App.tsx lines 244-247): rockets move and impact,
player missiles move and detonate, explosions evolve and act on rockets,
and finally the status check runs on the post-update score and batteries
(App.tsx lines 343-350): WON when the score reaches `level * WIN_SCORE`,
else LOST when every battery is destroyed. -/
def tickCore (spawn : Option Rocket) (g : GameState) : GameState :=
  let u := updateRockets (g.rockets ++ spawn.toList) g.cities g.batteries g.explosions
  let v := updateMissiles g.playerMissiles u.2.2.2
  let w := updateExplosions v.2 u.1 g.score
  let status' :=
    if g.level * WIN_SCORE ≤ w.2.2.2 then GameStatus.WON
    else if u.2.2.1.all (·.isDestroyed) then GameStatus.LOST
    else g.status
  { g with
    score := w.2.2.2
    status := status'
    rockets := w.2.2.1
    playerMissiles := v.1
    explosions := w.1 ++ w.2.1
    cities := u.2.1
    batteries := u.2.2.1 }

/-- The `update` callback returns immediately unless the status is PLAYING
(App.tsx line 233). -/
def update (spawn : Option Rocket) (g : GameState) : GameState :=
  if g.status = GameStatus.PLAYING then tickCore spawn g else g

/-! ### Command intake (App.tsx, `handleCanvasClick` and
`triggerMegaExplosion`) -/

/-- The closest-battery scan (App.tsx lines 130-143): `forEach` over the
batteries with index, keeping the first index realising the strictly
smallest `|b.pos.x - x|` among non-destroyed batteries.  `minDist` starts
at Infinity, modelled by `none`. -/
def scanBatteries (x : Rat) :
    List Battery → Nat → Option (Nat × Battery) → Option Rat → Option (Nat × Battery)
  | [], _, best, _ => best
  | b :: rest, i, best, minDist =>
    if ¬ b.isDestroyed ∧ (∀ m ∈ minDist, |b.pos.x - x| < m) then
      scanBatteries x rest (i + 1) (some (i, b)) (some |b.pos.x - x|)
    else
      scanBatteries x rest (i + 1) best minDist

/-- `bestBatteryIndex` of App.tsx lines 130-143 together with the battery
found there (the source stores the index and re-reads the array at it). -/
def findBattery (bs : List Battery) (x : Rat) : Option (Nat × Battery) :=
  scanBatteries x bs 0 none none

/-- The three missiles of a spread shot, offsets -25, 0, +25 on x
(App.tsx lines 151-165). -/
def tripleShot (battery : Battery) (i : Nat) (x y : Rat) : List PlayerMissile :=
  ([-25, 0, 25] : List Rat).map fun offsetX =>
    { start := battery.pos
      target := { x := x + offsetX, y := y }
      pos := battery.pos
      progress := 0
      speed := PLAYER_MISSILE_SPEED
      originBatteryIndex := i
      isGravityBomb := false }

/-- The single gravity-bomb missile (App.tsx lines 166-177). -/
def gravityShot (battery : Battery) (i : Nat) (x y : Rat) (isGravity : Bool) :
    List PlayerMissile :=
  [{ start := battery.pos
     target := { x := x, y := y }
     pos := battery.pos
     progress := 0
     speed := PLAYER_MISSILE_SPEED
     originBatteryIndex := i
     isGravityBomb := isGravity }]

/-- The Fire command (`handleCanvasClick`, App.tsx lines 110-184), after
the presentation layer has mapped the event to the logical point `(x, y)`;
the canvas-rectangle arithmetic and the right-button routing are
presentation-layer and outside the model.  Dropped silently unless the
status is PLAYING and some battery is alive.  The `ammoCost` local of the
source is computed but never used, so it is omitted. -/
def handleCanvasClick (g : GameState) (x y : Rat) (isGravity : Bool) : GameState :=
  if g.status = GameStatus.PLAYING then
    match findBattery g.batteries x with
    | none => g
    | some (i, battery) =>
      let newMissiles :=
        if isGravity then gravityShot battery i x y isGravity
        else tripleShot battery i x y
      { g with playerMissiles := g.playerMissiles ++ newMissiles }
  else g

/-- One cell of the area-clear explosion grid (App.tsx lines 201-208). -/
def megaExplosion (x y : Rat) : Explosion :=
  { pos := { x := x, y := y }, radius := 0, maxRadius := 300, life := 1,
    isExpanding := true }

/-- The grid of the area-clear command (App.tsx lines 199-210): the nested
loops `for (x = 100; x < GAME_WIDTH; x += 200)` and
`for (y = 100; y < GAME_HEIGHT; y += 200)` visit x = 100, 300, 500, 700
and y = 100, 300, 500, pushing in that order. -/
def megaGrid : List Explosion :=
  ([100, 300, 500, 700] : List Rat).flatMap fun x =>
    ([100, 300, 500] : List Rat).map fun y => megaExplosion x y

/-- The AreaClear command (`triggerMegaExplosion`, App.tsx lines 191-219):
while PLAYING, credits `SCORE_PER_ROCKET` per live rocket, clears the
rockets, and appends the fixed explosion grid; otherwise a no-op. -/
def triggerMegaExplosion (g : GameState) : GameState :=
  if g.status = GameStatus.PLAYING then
    { g with
      score := g.score + g.rockets.length * SCORE_PER_ROCKET
      rockets := []
      explosions := g.explosions ++ megaGrid }
  else g

/-- `startGame` (App.tsx lines 489-494), also bound to the Restart button
of the LOST overlay: the full initial state with status PLAYING. -/
def startGame : GameState :=
  { INITIAL_STATE with status := GameStatus.PLAYING }

/-- `nextLevel` (App.tsx lines 496-511): advance from WON, keeping score
and cities, clearing the projectiles and restoring the batteries. -/
def nextLevel (g : GameState) : GameState :=
  { g with
    status := GameStatus.PLAYING
    level := g.level + 1
    rockets := []
    playerMissiles := []
    explosions := []
    batteries := g.batteries.map fun b =>
      { b with isDestroyed := false, missiles := b.maxMissiles } }

/-! ### Concrete states used in counterexamples and witnesses -/

/-- A gravity explosion (maxRadius 110 > 55) with current radius 10,
centered at (100, 100). -/
def zeroDistExplosion : Explosion :=
  { pos := { x := 100, y := 100 }, radius := 10, maxRadius := 110, life := 1,
    isExpanding := true }

/-- A rocket sitting exactly at the center of `zeroDistExplosion`. -/
def zeroDistRocket : Rocket :=
  { start := { x := 100, y := 0 }, target := { x := 100, y := 100 },
    pos := { x := 100, y := 100 }, progress := 1 / 2, speed := 0 }

/-- A contracting gravity explosion at (0, 100) whose radius becomes
exactly 10 after one decay step (11.65 - 0.015 * 110 = 10). -/
def pullOrderExplosion : Explosion :=
  { pos := { x := 0, y := 100 }, radius := 11.65, maxRadius := 110, life := 1,
    isExpanding := false }

/-- A rocket at distance 10.5 from the center of `pullOrderExplosion`,
inside its pull range (21) but outside its kill radius (10); the pull
displaces it to distance 9.55, inside the kill radius. -/
def pullOrderRocket : Rocket :=
  { start := { x := 21 / 2, y := 100 }, target := { x := 21 / 2, y := 100 },
    pos := { x := 21 / 2, y := 100 }, progress := 0, speed := 0 }

/-- A fresh playing state holding one just-created standard explosion. -/
def overshootState : GameState :=
  { startGame with explosions := [impactExplosion { x := 400, y := 300 }] }

/-- A single standard explosion at screen center with radius `r` and
expansion flag `b`. -/
def expExplosion (r : Rat) (b : Bool) : Explosion :=
  { pos := { x := 400, y := 300 }, radius := r, maxRadius := 55, life := 1,
    isExpanding := b }

/-- The fresh playing state carrying `expExplosion r b` as its only
explosion. -/
def expState (r : Rat) (b : Bool) : GameState :=
  { startGame with explosions := [expExplosion r b] }

/-- A standard (non-gravity) explosion with current radius 10 at (0, 100). -/
def killWitnessExplosion : Explosion :=
  { pos := { x := 0, y := 100 }, radius := 10, maxRadius := 55, life := 1,
    isExpanding := false }

/-- A rocket at distance 6 from `killWitnessExplosion`'s center. -/
def killWitnessRocket : Rocket :=
  { start := { x := 6, y := 100 }, target := { x := 6, y := 100 },
    pos := { x := 6, y := 100 }, progress := 0, speed := 0 }

/-- `pullOrderExplosion` after its decay step: radius exactly 10. -/
def pullOrderEvolved : Explosion :=
  { pos := { x := 0, y := 100 }, radius := 10, maxRadius := 110, life := 1,
    isExpanding := false }

/-- `pullOrderRocket` after the gravity pull of `pullOrderEvolved`:
displaced from x = 10.5 to x = 10.5 - 0.95 = 9.55 = 191/20. -/
def pullOrderPulled : Rocket :=
  { start := { x := 21 / 2, y := 100 }, target := { x := 21 / 2, y := 100 },
    pos := { x := 191 / 20, y := 100 }, progress := 0, speed := 0 }

/-- A playing state with two live rockets, used to exercise AreaClear. -/
def areaClearState : GameState :=
  { startGame with rockets := [
      { start := { x := 100, y := 0 }, target := { x := 120, y := 580 },
        pos := { x := 110, y := 290 }, progress := 1 / 2, speed := 1 / 1000 },
      { start := { x := 700, y := 0 }, target := { x := 760, y := 570 },
        pos := { x := 730, y := 285 }, progress := 1 / 2, speed := 1 / 1000 }] }

/-- The invariant that actually bounds an explosion's radius: non-negative
and below `(1 + EXPLOSION_GROWTH_SPEED) * maxRadius` (the expansion step
can overshoot `maxRadius` by up to one growth increment before the phase
flips). -/
def explosionInv (e : Explosion) : Prop :=
  0 < e.maxRadius ∧ 0 ≤ e.radius ∧
    e.radius < (1 + EXPLOSION_GROWTH_SPEED) * e.maxRadius ∧
    (e.isExpanding = true → e.radius < e.maxRadius)

instance (e : Explosion) : Decidable (explosionInv e) := by
  unfold explosionInv; infer_instance

/-! ### Helper lemmas -/

theorem moveRocket_target (r : Rocket) : (moveRocket r).target = r.target := rfl

theorem sqrt_sq_of_nonneg (q : ℚ) (h : 0 ≤ q) : Rat.sqrt (q ^ 2) = q := by
  rw [sq, Rat.sqrt_eq, abs_of_nonneg h]

/-- Full characterisation of the inner rocket loop for one explosion:
survivors are exactly the pulled non-hit rockets in order, the score grows
by `SCORE_PER_ROCKET` per hit rocket, and the spawned secondaries sit at
the post-pull positions of the hit rockets, pushed in reverse list order
(the source iterates from the last rocket down). -/
theorem processRockets_eq (e : Explosion) (rs : List Rocket) (score : Nat) :
    processRockets e rs score =
      ((rs.filter fun r => ! rocketHit e r).map (pullRocket e),
       score + SCORE_PER_ROCKET * rs.countP (rocketHit e),
       ((rs.filter (rocketHit e)).map fun r =>
         secondaryExplosion (pullRocket e r).pos).reverse) := by
  induction rs with
  | nil => simp [processRockets]
  | cons r rest ih =>
    simp only [processRockets, ih, List.filter_cons, List.countP_cons, List.map_cons,
      List.reverse_cons]
    by_cases h : rocketHit e r
    · simp [h, Nat.mul_add, Nat.add_assoc]
    · simp [h]

/-- Across the whole explosion step of a tick, the score grows by exactly
`SCORE_PER_ROCKET` for each rocket removed: removal is immediate within
the pass, so overlapping explosions never credit one rocket twice. -/
theorem updateExplosions_score (es : List Explosion) (rs : List Rocket) (sc : Nat) :
    (updateExplosions es rs sc).2.2.1.length ≤ rs.length ∧
    (updateExplosions es rs sc).2.2.2 =
      sc + SCORE_PER_ROCKET * (rs.length - (updateExplosions es rs sc).2.2.1.length) := by
  induction es with
  | nil => simp [updateExplosions]
  | cons e rest ih =>
    obtain ⟨h1, h2⟩ := ih
    simp only [updateExplosions]
    cases hev : evolveExplosion e with
    | none => exact ⟨h1, h2⟩
    | some e' =>
      simp only [processRockets_eq]
      set w := updateExplosions rest rs sc with hw
      have hcount : w.2.2.1.countP (rocketHit e') ≤ w.2.2.1.length :=
        List.countP_le_length _
      have hnot : w.2.2.1.countP (rocketHit e') +
          w.2.2.1.countP (fun r => ! rocketHit e' r) = w.2.2.1.length := by
        have := (List.length_eq_countP_add_countP (l := w.2.2.1) (p := rocketHit e')).symm
        simpa using this
      simp only [SCORE_PER_ROCKET] at h2 ⊢
      refine ⟨?_, ?_⟩
      · simp only [List.length_map, ← List.countP_eq_length_filter]; omega
      · simp only [List.length_map, ← List.countP_eq_length_filter, h2]
        omega

/-- Characterisation of the player-missile step: survivors are the moved
missiles still short of progress 1, and each missile that completes pushes
its explosion (in reverse list order, matching the source's backward
iteration). -/
theorem updateMissiles_eq (ms : List PlayerMissile) (es : List Explosion) :
    updateMissiles ms es =
      ((ms.map moveMissile).filter (fun m => decide (m.progress < 1)),
       es ++ (((ms.map moveMissile).filter fun m => decide (1 ≤ m.progress)).map
         missileExplosion).reverse) := by
  induction ms with
  | nil => simp [updateMissiles]
  | cons m rest ih =>
    simp only [updateMissiles, ih, List.map_cons, List.filter_cons]
    by_cases h : (1 : ℚ) ≤ (moveMissile m).progress
    · have h' : ¬ (moveMissile m).progress < 1 := not_lt.mpr h
      simp [h, h', List.append_assoc]
    · have h' : (moveMissile m).progress < 1 := not_le.mp h
      simp [h, h']

/-- Marking a city destroyed commutes with an earlier or-update of its
destroyed flag. -/
theorem destroyCity_or (c : City) (a : Bool) (tx : Rat) :
    (if ¬ ({ c with isDestroyed := c.isDestroyed || a } : City).isDestroyed ∧
        |({ c with isDestroyed := c.isDestroyed || a } : City).pos.x - tx| < 20 then
      ({ { c with isDestroyed := c.isDestroyed || a } with isDestroyed := true } : City)
    else { c with isDestroyed := c.isDestroyed || a }) =
      { c with isDestroyed := c.isDestroyed || (decide (|c.pos.x - tx| < 20) || a) } := by
  rcases c with ⟨pos, d⟩
  cases d <;> cases a <;> by_cases hc : |pos.x - tx| < 20 <;>
    simp [hc, City.mk.injEq]

/-- Marking a battery destroyed commutes with an earlier or-update of its
destroyed flag. -/
theorem destroyBattery_or (b : Battery) (a : Bool) (tx : Rat) :
    (if ¬ ({ b with isDestroyed := b.isDestroyed || a } : Battery).isDestroyed ∧
        |({ b with isDestroyed := b.isDestroyed || a } : Battery).pos.x - tx| < 20 then
      ({ { b with isDestroyed := b.isDestroyed || a } with isDestroyed := true } : Battery)
    else { b with isDestroyed := b.isDestroyed || a }) =
      { b with isDestroyed := b.isDestroyed || (decide (|b.pos.x - tx| < 20) || a) } := by
  rcases b with ⟨pos, ms, mms, d⟩
  cases d <;> cases a <;> by_cases hc : |pos.x - tx| < 20 <;>
    simp [hc, Battery.mk.injEq]

/-- Characterisation of the rocket step: survivors are the moved rockets
still short of progress 1; a city or battery ends the step destroyed
exactly when it already was or some completing rocket's target is within
horizontal distance < 20 of it; each completing rocket pushes a standard
impact explosion at its target (in reverse list order). -/
theorem updateRockets_eq (rs : List Rocket) (cs : List City) (bs : List Battery)
    (es : List Explosion) :
    updateRockets rs cs bs es =
      ((rs.map moveRocket).filter (fun r => decide (r.progress < 1)),
       cs.map (fun c => { c with isDestroyed := (c.isDestroyed ||
         rs.any (fun r => decide (1 ≤ (moveRocket r).progress) &&
           decide (|c.pos.x - r.target.x| < 20))) }),
       bs.map (fun b => { b with isDestroyed := (b.isDestroyed ||
         rs.any (fun r => decide (1 ≤ (moveRocket r).progress) &&
           decide (|b.pos.x - r.target.x| < 20))) }),
       es ++ (((rs.map moveRocket).filter fun r => decide (1 ≤ r.progress)).map
         fun r => impactExplosion r.target).reverse) := by
  induction rs with
  | nil =>
    have hc : ∀ c : City, ({ c with isDestroyed := c.isDestroyed } : City) = c :=
      fun c => rfl
    have hb : ∀ b : Battery, ({ b with isDestroyed := b.isDestroyed } : Battery) = b :=
      fun b => rfl
    simp [updateRockets, hc, hb]
  | cons r rest ih =>
    by_cases h : (1 : ℚ) ≤ (moveRocket r).progress
    · have h' : ¬ (moveRocket r).progress < 1 := not_lt.mpr h
      have htgt : (moveRocket r).target = r.target := rfl
      simp only [updateRockets, ih, if_pos h]
      refine congrArg₂ Prod.mk ?_ (congrArg₂ Prod.mk ?_ (congrArg₂ Prod.mk ?_ ?_))
      · simp [h', List.filter_cons]
      · simp only [destroyCities, List.map_map, Function.comp_def, List.any_cons,
          decide_eq_true h, Bool.true_and]
        exact List.map_congr_left fun c _ => destroyCity_or c _ r.target.x
      · simp only [destroyBatteries, List.map_map, Function.comp_def, List.any_cons,
          decide_eq_true h, Bool.true_and]
        exact List.map_congr_left fun b _ => destroyBattery_or b _ r.target.x
      · simp [h, htgt, List.filter_cons, List.append_assoc]
    · have h' : (moveRocket r).progress < 1 := not_le.mp h
      simp only [updateRockets, ih, if_neg h]
      simp [h, h', List.filter_cons]

/-- If every battery is destroyed, the closest-battery scan never updates
its accumulator. -/
theorem scanBatteries_all_destroyed (x : Rat) :
    ∀ (bs : List Battery) (i : Nat) (best : Option (Nat × Battery)) (md : Option Rat),
      (∀ b ∈ bs, b.isDestroyed) → scanBatteries x bs i best md = best := by
  intro bs
  induction bs with
  | nil => intro i best md _; rfl
  | cons b rest ih =>
    intro i best md hall
    have hb : b.isDestroyed := hall b (List.mem_cons_self b rest)
    have : ¬ (¬ b.isDestroyed ∧ ∀ m ∈ md, |b.pos.x - x| < m) := fun hc => hc.1 hb
    simp only [scanBatteries, if_neg this]
    exact ih _ _ _ fun b' hb' => hall b' (List.mem_cons_of_mem b hb')

/-- Running-minimum invariant of the closest-battery scan: starting from a
consistent accumulator, the scan returns `none` only if the accumulator
was empty and every scanned battery is destroyed; and any returned battery
is alive and at minimal horizontal distance among the scanned alive
batteries. -/
theorem scanBatteries_min (x : Rat) :
    ∀ (bs : List Battery) (i : Nat) (best : Option (Nat × Battery)) (md : Option Rat),
      ((best = none ∧ md = none) ∨
        (∃ p m, best = some p ∧ md = some m ∧ ¬ p.2.isDestroyed ∧ m = |p.2.pos.x - x|)) →
      (scanBatteries x bs i best md = none → best = none ∧ ∀ b ∈ bs, b.isDestroyed) ∧
      (∀ p, scanBatteries x bs i best md = some p →
        ¬ p.2.isDestroyed ∧
        (∀ b ∈ bs, ¬ b.isDestroyed → |p.2.pos.x - x| ≤ |b.pos.x - x|) ∧
        (best = some p ∨ (p.2 ∈ bs ∧ ∀ m ∈ md, |p.2.pos.x - x| < m))) := by
  intro bs
  induction bs with
  | nil =>
    intro i best md hinv
    refine ⟨fun h => ⟨h, by simp⟩, fun p hp => ?_⟩
    rcases hinv with ⟨hb, _⟩ | ⟨q, m, hb, hm, halive, _⟩
    · rw [hb] at hp; exact absurd hp (by simp [scanBatteries])
    · rw [hb] at hp
      have : q = p := by simpa [scanBatteries] using hp
      subst this
      exact ⟨halive, by simp, Or.inl (by rw [hb])⟩
  | cons b rest ih =>
    intro i best md hinv
    by_cases hc : ¬ b.isDestroyed ∧ ∀ m ∈ md, |b.pos.x - x| < m
    · have hstep : scanBatteries x (b :: rest) i best md =
          scanBatteries x rest (i + 1) (some (i, b)) (some |b.pos.x - x|) := by
        simp only [scanBatteries, if_pos hc]
      have hinv' : ((some (i, b) : Option (Nat × Battery)) = none ∧
            (some |b.pos.x - x| : Option Rat) = none) ∨
          (∃ p m, (some (i, b) : Option (Nat × Battery)) = some p ∧
            (some |b.pos.x - x| : Option Rat) = some m ∧ ¬ p.2.isDestroyed ∧
            m = |p.2.pos.x - x|) :=
        Or.inr ⟨(i, b), |b.pos.x - x|, rfl, rfl, hc.1, rfl⟩
      obtain ⟨ihn, ihs⟩ := ih (i + 1) (some (i, b)) (some |b.pos.x - x|) hinv'
      rw [hstep]
      refine ⟨fun h => absurd (ihn h).1 (by simp), fun p hp => ?_⟩
      obtain ⟨halive, hmin, hdisj⟩ := ihs p hp
      refine ⟨halive, ?_, ?_⟩
      · intro b' hb' hb'alive
        rcases List.mem_cons.mp hb' with rfl | hmem
        · rcases hdisj with heq | ⟨_, hlt⟩
          · have : p = (i, b') := by simpa using heq.symm
            rw [this]
          · exact le_of_lt (hlt _ rfl)
        · exact hmin b' hmem hb'alive
      · rcases hdisj with heq | ⟨hmem, hlt⟩
        · have hpb : p = (i, b) := by simpa using heq.symm
          refine Or.inr ⟨by rw [hpb]; exact List.mem_cons_self b rest, ?_⟩
          intro m hm
          rw [hpb]
          exact hc.2 m hm
        · refine Or.inr ⟨List.mem_cons_of_mem b hmem, ?_⟩
          intro m hm
          exact lt_trans (hlt _ rfl) (hc.2 m hm)
    · have hstep : scanBatteries x (b :: rest) i best md =
          scanBatteries x rest (i + 1) best md := by
        simp only [scanBatteries, if_neg hc]
      obtain ⟨ihn, ihs⟩ := ih (i + 1) best md hinv
      rw [hstep]
      refine ⟨fun h => ?_, fun p hp => ?_⟩
      · obtain ⟨hbn, hall⟩ := ihn h
        have hmd : md = none := by
          rcases hinv with ⟨_, h2⟩ | ⟨q, m, hq, _, _, _⟩
          · exact h2
          · rw [hq] at hbn; exact absurd hbn (by simp)
        have hbd : b.isDestroyed := by
          by_contra hbd
          exact hc ⟨hbd, by simp [hmd]⟩
        exact ⟨hbn, fun b' hb' => (List.mem_cons.mp hb').elim (fun h => h ▸ hbd)
          (fun h => hall b' h)⟩
      · obtain ⟨halive, hmin, hdisj⟩ := ihs p hp
        refine ⟨halive, ?_, ?_⟩
        · intro b' hb' hb'alive
          rcases List.mem_cons.mp hb' with rfl | hmem
          · have hex : ∃ m, md = some m ∧ m ≤ |b'.pos.x - x| := by
              by_contra hno
              push_neg at hno
              refine hc ⟨hb'alive, fun m hm => ?_⟩
              have := hno m (by simpa using hm)
              linarith
            obtain ⟨m, hmd, hmle⟩ := hex
            rcases hinv with ⟨_, h2⟩ | ⟨q, m', hq, hm', hqalive, hqd⟩
            · rw [h2] at hmd; exact absurd hmd (by simp)
            · have hmm : m' = m := by rw [hmd] at hm'; exact (by simpa using hm' : m = m').symm
              rcases hdisj with heq | ⟨_, hlt⟩
              · have : q = p := by rw [hq] at heq; simpa using heq
                subst this
                calc |q.2.pos.x - x| = m' := hqd.symm
                  _ = m := hmm
                  _ ≤ |b'.pos.x - x| := hmle
              · have := hlt m (by rw [hmd]; rfl)
                linarith
          · exact hmin b' hmem hb'alive
        · rcases hdisj with heq | ⟨hmem, hlt⟩
          · exact Or.inl heq
          · exact Or.inr ⟨List.mem_cons_of_mem b hmem, hlt⟩

/-! ### Claim theorems -/

/-- Claim C1 (code bug): the source has no guard for a rocket at distance
exactly 0 from a gravity explosion's center.  With `zeroDistRocket`
sitting on `zeroDistExplosion`'s center, the distance evaluates to 0 and
the pull branch is still entered (`gravityPullTaken` is `true`), so the
source divides `dx` and `dy` by the zero distance — in JavaScript this
produces NaN in the rocket's position fields.  The claimed guard
(skip the pull when d = 0) does not exist in the code. -/
theorem gravity_pull_zero_distance_not_skipped :
    gravityPullTaken zeroDistExplosion zeroDistRocket = true ∧
    rocketDist zeroDistExplosion zeroDistRocket = 0 := by
  have h0 : rocketDist zeroDistExplosion zeroDistRocket = 0 := by
    have harg : (zeroDistRocket.pos.x - zeroDistExplosion.pos.x) ^ 2 +
        (zeroDistRocket.pos.y - zeroDistExplosion.pos.y) ^ 2 = 0 * 0 := by
      norm_num [zeroDistRocket, zeroDistExplosion]
    rw [rocketDist, harg, Rat.sqrt_eq]
    norm_num
  refine ⟨?_, h0⟩
  rw [gravityPullTaken, h0]
  norm_num [isGravityExplosion, zeroDistExplosion, EXPLOSION_MAX_RADIUS]

/-- Claim C2: in a PLAYING tick the status check runs after all entity
updates, on the post-update score and battery list: the tick ends WON
exactly when the post-update score reaches `level * WIN_SCORE`, and ends
LOST exactly when the score is below the threshold and every (post-update)
battery is destroyed — so destroyed cities never cause LOST, and a tick
meeting both conditions favours WON. -/
theorem tick_status_characterisation (g : GameState) (spawn : Option Rocket)
    (hst : g.status = GameStatus.PLAYING) :
    ((update spawn g).status = GameStatus.WON ↔
      g.level * WIN_SCORE ≤ (update spawn g).score) ∧
    ((update spawn g).status = GameStatus.LOST ↔
      ((update spawn g).score < g.level * WIN_SCORE ∧
        ∀ b ∈ (update spawn g).batteries, b.isDestroyed)) := by
  have hs : (update spawn g).status =
      (if g.level * WIN_SCORE ≤ (update spawn g).score then GameStatus.WON
       else if (update spawn g).batteries.all (·.isDestroyed) then GameStatus.LOST
       else g.status) := by
    rw [update, if_pos hst]; rfl
  rw [hs]
  by_cases hw : g.level * WIN_SCORE ≤ (update spawn g).score
  · rw [if_pos hw]
    refine ⟨⟨fun _ => hw, fun _ => rfl⟩, ?_, ?_⟩
    · intro h; exact GameStatus.noConfusion h
    · rintro ⟨hlt, _⟩; exact absurd hw (not_le.mpr hlt)
  · rw [if_neg hw]
    by_cases hb : (update spawn g).batteries.all (·.isDestroyed)
    · rw [if_pos hb]
      refine ⟨⟨fun h => GameStatus.noConfusion h, fun h => absurd h hw⟩, ?_, ?_⟩
      · intro _
        exact ⟨not_le.mp hw, fun b hbm => List.all_eq_true.mp hb b hbm⟩
      · intro _; rfl
    · rw [if_neg hb, hst]
      refine ⟨⟨fun h => GameStatus.noConfusion h, fun h => absurd h hw⟩, ?_, ?_⟩
      · intro h; exact GameStatus.noConfusion h
      · rintro ⟨_, hall⟩
        exact absurd (List.all_eq_true.mpr fun b hbm => hall b hbm) hb

/-- Witness for C2 at the concrete fresh playing state. -/
theorem tick_status_characterisation_witness :
    (update none startGame).status = GameStatus.WON ↔
      startGame.level * WIN_SCORE ≤ (update none startGame).score :=
  (tick_status_characterisation startGame none rfl).1

/-- Claim C9: while PLAYING, the AreaClear command removes all live
rockets, credits exactly `SCORE_PER_ROCKET` per removed rocket (no
duplicate credit), and appends the fixed `megaGrid` of twelve large
explosions, whose positions and sizes do not depend on the rockets; in
any other status it changes nothing. -/
theorem areaClear_characterisation (g : GameState) :
    (g.status = GameStatus.PLAYING →
      triggerMegaExplosion g =
        { g with
          score := g.score + g.rockets.length * SCORE_PER_ROCKET
          rockets := []
          explosions := g.explosions ++ megaGrid }) ∧
    (g.status ≠ GameStatus.PLAYING → triggerMegaExplosion g = g) ∧
    megaGrid.length = 12 ∧
    (∀ e ∈ megaGrid, e.maxRadius = 300 ∧ e.radius = 0 ∧ e.isExpanding = true) := by
  refine ⟨fun h => ?_, fun h => ?_, by decide, by decide⟩
  · rw [triggerMegaExplosion, if_pos h]
  · rw [triggerMegaExplosion, if_neg h]

/-- Witness for C9: a playing state with two live rockets is cleared with
exactly two rockets' worth of score. -/
theorem areaClear_characterisation_witness :
    triggerMegaExplosion areaClearState =
      { areaClearState with
        score := areaClearState.score +
          areaClearState.rockets.length * SCORE_PER_ROCKET
        rockets := []
        explosions := areaClearState.explosions ++ megaGrid } :=
  (areaClear_characterisation areaClearState).1 rfl

/-- Claim C10: a fresh game (the Start command, and equally the Restart
command after LOST, both of which install `startGame`) begins at level 50,
so its win threshold is 50 * WIN_SCORE = 50000; the score is 0, there are
no rockets, missiles or explosions, and every city and battery is alive. -/
theorem initial_level_fifty :
    INITIAL_STATE.level = 50 ∧
    startGame = { INITIAL_STATE with status := GameStatus.PLAYING } ∧
    startGame.level = 50 ∧
    startGame.level * WIN_SCORE = 50000 ∧
    startGame.score = 0 ∧
    startGame.rockets = [] ∧
    startGame.playerMissiles = [] ∧
    startGame.explosions = [] ∧
    startGame.cities.all (fun c => ! c.isDestroyed) = true ∧
    startGame.batteries.all (fun b => ! b.isDestroyed) = true ∧
    startGame.cities.length = CITY_COUNT ∧
    startGame.batteries.length = 3 := by
  refine ⟨rfl, rfl, rfl, rfl, rfl, rfl, rfl, rfl, by decide, by decide, by decide, rfl⟩

/-- Claim C6: a rocket whose progress reaches 1 in the tick destroys every
still-alive city and battery whose x-coordinate is within strict
horizontal distance 20 of its target, is itself removed, and pushes a
standard-max-radius impact explosion at its target point. -/
theorem rocket_impact_characterisation (rs : List Rocket) (cs : List City)
    (bs : List Battery) (es : List Explosion) :
    (updateRockets rs cs bs es).2.1 =
      cs.map (fun c => { c with isDestroyed := (c.isDestroyed ||
        rs.any (fun r => decide (1 ≤ (moveRocket r).progress) &&
          decide (|c.pos.x - r.target.x| < 20))) }) ∧
    (updateRockets rs cs bs es).2.2.1 =
      bs.map (fun b => { b with isDestroyed := (b.isDestroyed ||
        rs.any (fun r => decide (1 ≤ (moveRocket r).progress) &&
          decide (|b.pos.x - r.target.x| < 20))) }) ∧
    (updateRockets rs cs bs es).1 =
      (rs.map moveRocket).filter (fun r => decide (r.progress < 1)) ∧
    (updateRockets rs cs bs es).2.2.2 =
      es ++ (((rs.map moveRocket).filter fun r => decide (1 ≤ r.progress)).map
        fun r => impactExplosion r.target).reverse ∧
    ∀ p : Point, (impactExplosion p).maxRadius = EXPLOSION_MAX_RADIUS ∧
      (impactExplosion p).pos = p ∧ (impactExplosion p).radius = 0 := by
  rw [updateRockets_eq]
  exact ⟨rfl, rfl, rfl, rfl, fun p => ⟨rfl, rfl, rfl⟩⟩

/-- Claim C7: a player missile whose progress reaches 1 in the tick is
removed and leaves an explosion at its target whose max radius is doubled
exactly when the missile is a gravity bomb; the missile step never touches
cities or batteries — in the whole tick they are exactly the output of the
rocket-impact step. -/
theorem missile_impact_characterisation (ms : List PlayerMissile) (es : List Explosion) :
    (updateMissiles ms es).1 =
      (ms.map moveMissile).filter (fun m => decide (m.progress < 1)) ∧
    (updateMissiles ms es).2 =
      es ++ (((ms.map moveMissile).filter fun m => decide (1 ≤ m.progress)).map
        missileExplosion).reverse ∧
    (∀ m : PlayerMissile, (missileExplosion m).maxRadius =
        (if m.isGravityBomb then EXPLOSION_MAX_RADIUS * 2 else EXPLOSION_MAX_RADIUS) ∧
      (missileExplosion m).pos = m.target) ∧
    (∀ (spawn : Option Rocket) (g : GameState),
      (tickCore spawn g).cities =
        (updateRockets (g.rockets ++ spawn.toList) g.cities g.batteries g.explosions).2.1 ∧
      (tickCore spawn g).batteries =
        (updateRockets (g.rockets ++ spawn.toList) g.cities g.batteries
          g.explosions).2.2.1) := by
  rw [updateMissiles_eq]
  exact ⟨rfl, rfl, fun m => ⟨rfl, rfl⟩, fun spawn g => ⟨rfl, rfl⟩⟩

/-- Claim C5: in one explosion's pass every rocket strictly inside the
current radius is removed within that same pass (the survivor count is
the count of non-hit rockets), the score is credited `SCORE_PER_ROCKET`
per hit rocket, and every spawned secondary explosion is a 0.8-standard
explosion at some hit rocket's post-pull (last) position; across all the
explosions of a tick the total credit is exactly `SCORE_PER_ROCKET` times
the number of removed rockets, so overlapping explosions never credit one
rocket twice. -/
theorem explosion_kill_credit :
    (∀ (e : Explosion) (rs : List Rocket) (sc : Nat),
      (processRockets e rs sc).1.length = rs.countP (fun r => ! rocketHit e r) ∧
      (processRockets e rs sc).2.1 = sc + SCORE_PER_ROCKET * rs.countP (rocketHit e) ∧
      (processRockets e rs sc).2.2.length = rs.countP (rocketHit e) ∧
      ∀ x ∈ (processRockets e rs sc).2.2, ∃ r, r ∈ rs ∧ rocketHit e r = true ∧
        x = secondaryExplosion (pullRocket e r).pos) ∧
    (∀ p : Point, (secondaryExplosion p).maxRadius = EXPLOSION_MAX_RADIUS * 0.8 ∧
      (secondaryExplosion p).radius = 0 ∧ (secondaryExplosion p).pos = p) ∧
    (∀ (es : List Explosion) (rs : List Rocket) (sc : Nat),
      (updateExplosions es rs sc).2.2.1.length ≤ rs.length ∧
      (updateExplosions es rs sc).2.2.2 =
        sc + SCORE_PER_ROCKET * (rs.length - (updateExplosions es rs sc).2.2.1.length)) := by
  refine ⟨fun e rs sc => ?_, fun p => ⟨rfl, rfl, rfl⟩,
    fun es rs sc => updateExplosions_score es rs sc⟩
  rw [processRockets_eq]
  refine ⟨?_, rfl, ?_, ?_⟩
  · simp [List.countP_eq_length_filter]
  · simp [List.countP_eq_length_filter]
  · intro x hx
    simp only [List.mem_reverse, List.mem_map, List.mem_filter] at hx
    obtain ⟨r, ⟨hr, hhit⟩, hx⟩ := hx
    exact ⟨r, hr, hhit, hx.symm⟩

/-- Witness for C5: a rocket at distance 6 inside a standard explosion of
current radius 10 is credited exactly once. -/
theorem explosion_kill_credit_witness :
    (processRockets killWitnessExplosion [killWitnessRocket] 0).2.1 =
      0 + SCORE_PER_ROCKET * List.countP (rocketHit killWitnessExplosion)
        [killWitnessRocket] :=
  (explosion_kill_credit.1 killWitnessExplosion [killWitnessRocket] 0).2.1

/-- Claim C3 (amended): within one explosion's pass the gravity pull is
applied before the kill handling — survivors are the pulled non-hit
rockets and each killed rocket's secondary explosion sits at its
post-pull position — but the kill decision itself (`rocketHit`) reads the
distance computed from the PRE-pull position, not the post-pull one. -/
theorem gravity_pull_order (e : Explosion) (rs : List Rocket) (sc : Nat) :
    (processRockets e rs sc).1 =
      (rs.filter fun r => ! rocketHit e r).map (pullRocket e) ∧
    (processRockets e rs sc).2.2 =
      ((rs.filter (rocketHit e)).map fun r =>
        secondaryExplosion (pullRocket e r).pos).reverse := by
  rw [processRockets_eq]
  exact ⟨rfl, rfl⟩

theorem pullOrder_evolve :
    evolveExplosion pullOrderExplosion = some pullOrderEvolved := by
  rw [evolveExplosion]
  norm_num [pullOrderExplosion, pullOrderEvolved, EXPLOSION_DECAY_SPEED]

theorem pullOrder_dist :
    rocketDist pullOrderEvolved pullOrderRocket = 21 / 2 := by
  have harg : (pullOrderRocket.pos.x - pullOrderEvolved.pos.x) ^ 2 +
      (pullOrderRocket.pos.y - pullOrderEvolved.pos.y) ^ 2 = (21 / 2 : ℚ) ^ 2 := by
    norm_num [pullOrderRocket, pullOrderEvolved]
  rw [rocketDist, harg, sqrt_sq_of_nonneg (21 / 2 : ℚ) (by norm_num)]

theorem pullOrder_taken :
    gravityPullTaken pullOrderEvolved pullOrderRocket = true := by
  rw [gravityPullTaken, pullOrder_dist]
  norm_num [isGravityExplosion, pullOrderEvolved, EXPLOSION_MAX_RADIUS]

theorem pullOrder_pull :
    pullRocket pullOrderEvolved pullOrderRocket = pullOrderPulled := by
  rw [pullRocket, if_pos pullOrder_taken]
  simp only [pullOrder_dist]
  norm_num [pullOrderRocket, pullOrderEvolved, pullOrderPulled,
    Rocket.mk.injEq, Point.mk.injEq]

theorem pullOrder_not_hit :
    rocketHit pullOrderEvolved pullOrderRocket = false := by
  rw [rocketHit, pullOrder_dist]
  norm_num [pullOrderEvolved]

theorem pullOrder_dist_pulled :
    rocketDist pullOrderEvolved pullOrderPulled = 191 / 20 := by
  have harg : (pullOrderPulled.pos.x - pullOrderEvolved.pos.x) ^ 2 +
      (pullOrderPulled.pos.y - pullOrderEvolved.pos.y) ^ 2 = (191 / 20 : ℚ) ^ 2 := by
    norm_num [pullOrderPulled, pullOrderEvolved]
  rw [rocketDist, harg, sqrt_sq_of_nonneg (191 / 20 : ℚ) (by norm_num)]

/-- Claim C3 (counterexample): one explosion step on a contracting
gravity explosion (processed radius 10) and a rocket at pre-pull distance
10.5: the pull moves the rocket to distance 9.55, strictly inside the
kill radius, yet the rocket survives the pass and no score is credited —
the kill test was evaluated on the pre-pull distance, not the post-pull
position as claimed. -/
theorem gravity_pull_order_counterexample :
    updateExplosions [pullOrderExplosion] [pullOrderRocket] 0 =
      ([pullOrderEvolved], [], [pullOrderPulled], 0) ∧
    rocketDist pullOrderEvolved pullOrderPulled < pullOrderEvolved.radius := by
  constructor
  · simp only [updateExplosions, pullOrder_evolve, processRockets, pullOrder_pull,
      pullOrder_not_hit]
    simp
  · rw [pullOrder_dist_pulled]
    norm_num [pullOrderEvolved]

/-- One PLAYING tick with no spawn on a fresh state holding a single
expanding standard explosion of radius `r`: the radius grows by
`EXPLOSION_GROWTH_SPEED * 55` and the phase flips exactly when the new
radius reaches 55. -/
theorem tick_expand (r r' : Rat) (b : Bool)
    (hsum : r + EXPLOSION_GROWTH_SPEED * 55 = r') (hb : decide (r' < 55) = b) :
    update none (expState r true) = expState r' b := by
  have hst : (expState r true).status = GameStatus.PLAYING := rfl
  rw [update, if_pos hst]
  have hevo : evolveExplosion (expExplosion r true) = some (expExplosion r' b) := by
    rw [evolveExplosion]
    dsimp only [expExplosion]
    rw [if_pos rfl]
    rw [hsum, hb]
  show tickCore none (expState r true) = expState r' b
  dsimp only [tickCore, expState, startGame, INITIAL_STATE]
  simp only [updateRockets, updateMissiles, updateExplosions, processRockets, hevo]
  norm_num [WIN_SCORE, BATTERY_CONFIGS, CITY_COUNT]

/-- Claim C4 (counterexample): starting from a fresh playing state whose
only explosion is a just-created standard impact explosion (radius 0,
maxRadius 55), after 17 ticks the snapshot holds that explosion with
radius 17 * 0.06 * 55 = 56.1 > 55 = maxRadius: the expansion step has no
clamp, so the radius overshoots `maxRadius` before the phase flips. -/
theorem explosion_radius_overshoot_counterexample :
    (update none)^[17] overshootState = expState (561/10) false ∧
    (expExplosion (561/10) false).maxRadius < (expExplosion (561/10) false).radius := by
  constructor
  · have h0 : overshootState = expState 0 true := rfl
    rw [h0]
    rw [show (17 : ℕ) = 16 + 1 from rfl, Function.iterate_succ_apply,
      tick_expand 0 (33/10) true (by norm_num [EXPLOSION_GROWTH_SPEED])
        (by norm_num)]
    rw [show (16 : ℕ) = 15 + 1 from rfl, Function.iterate_succ_apply,
      tick_expand (33/10) (66/10) true (by norm_num [EXPLOSION_GROWTH_SPEED])
        (by norm_num)]
    rw [show (15 : ℕ) = 14 + 1 from rfl, Function.iterate_succ_apply,
      tick_expand (66/10) (99/10) true (by norm_num [EXPLOSION_GROWTH_SPEED])
        (by norm_num)]
    rw [show (14 : ℕ) = 13 + 1 from rfl, Function.iterate_succ_apply,
      tick_expand (99/10) (132/10) true (by norm_num [EXPLOSION_GROWTH_SPEED])
        (by norm_num)]
    rw [show (13 : ℕ) = 12 + 1 from rfl, Function.iterate_succ_apply,
      tick_expand (132/10) (165/10) true (by norm_num [EXPLOSION_GROWTH_SPEED])
        (by norm_num)]
    rw [show (12 : ℕ) = 11 + 1 from rfl, Function.iterate_succ_apply,
      tick_expand (165/10) (198/10) true (by norm_num [EXPLOSION_GROWTH_SPEED])
        (by norm_num)]
    rw [show (11 : ℕ) = 10 + 1 from rfl, Function.iterate_succ_apply,
      tick_expand (198/10) (231/10) true (by norm_num [EXPLOSION_GROWTH_SPEED])
        (by norm_num)]
    rw [show (10 : ℕ) = 9 + 1 from rfl, Function.iterate_succ_apply,
      tick_expand (231/10) (264/10) true (by norm_num [EXPLOSION_GROWTH_SPEED])
        (by norm_num)]
    rw [show (9 : ℕ) = 8 + 1 from rfl, Function.iterate_succ_apply,
      tick_expand (264/10) (297/10) true (by norm_num [EXPLOSION_GROWTH_SPEED])
        (by norm_num)]
    rw [show (8 : ℕ) = 7 + 1 from rfl, Function.iterate_succ_apply,
      tick_expand (297/10) (330/10) true (by norm_num [EXPLOSION_GROWTH_SPEED])
        (by norm_num)]
    rw [show (7 : ℕ) = 6 + 1 from rfl, Function.iterate_succ_apply,
      tick_expand (330/10) (363/10) true (by norm_num [EXPLOSION_GROWTH_SPEED])
        (by norm_num)]
    rw [show (6 : ℕ) = 5 + 1 from rfl, Function.iterate_succ_apply,
      tick_expand (363/10) (396/10) true (by norm_num [EXPLOSION_GROWTH_SPEED])
        (by norm_num)]
    rw [show (5 : ℕ) = 4 + 1 from rfl, Function.iterate_succ_apply,
      tick_expand (396/10) (429/10) true (by norm_num [EXPLOSION_GROWTH_SPEED])
        (by norm_num)]
    rw [show (4 : ℕ) = 3 + 1 from rfl, Function.iterate_succ_apply,
      tick_expand (429/10) (462/10) true (by norm_num [EXPLOSION_GROWTH_SPEED])
        (by norm_num)]
    rw [show (3 : ℕ) = 2 + 1 from rfl, Function.iterate_succ_apply,
      tick_expand (462/10) (495/10) true (by norm_num [EXPLOSION_GROWTH_SPEED])
        (by norm_num)]
    rw [show (2 : ℕ) = 1 + 1 from rfl, Function.iterate_succ_apply,
      tick_expand (495/10) (528/10) true (by norm_num [EXPLOSION_GROWTH_SPEED])
        (by norm_num)]
    rw [show (1 : ℕ) = 0 + 1 from rfl, Function.iterate_succ_apply,
      tick_expand (528/10) (561/10) false (by norm_num [EXPLOSION_GROWTH_SPEED])
        (by norm_num)]
    rfl
  · norm_num [expExplosion]

theorem explosionInv_impact (p : Point) : explosionInv (impactExplosion p) := by
  refine ⟨by norm_num [impactExplosion, EXPLOSION_MAX_RADIUS], by norm_num [impactExplosion],
    by norm_num [impactExplosion, EXPLOSION_MAX_RADIUS, EXPLOSION_GROWTH_SPEED], ?_⟩
  intro _
  norm_num [impactExplosion, EXPLOSION_MAX_RADIUS]

theorem explosionInv_missile (m : PlayerMissile) : explosionInv (missileExplosion m) := by
  cases hb : m.isGravityBomb <;>
    refine ⟨?_, ?_, ?_, fun _ => ?_⟩ <;>
    norm_num [missileExplosion, hb, EXPLOSION_MAX_RADIUS, EXPLOSION_GROWTH_SPEED]

theorem explosionInv_secondary (p : Point) : explosionInv (secondaryExplosion p) := by
  refine ⟨?_, ?_, ?_, fun _ => ?_⟩ <;>
    norm_num [secondaryExplosion, EXPLOSION_MAX_RADIUS, EXPLOSION_GROWTH_SPEED]

/-- A radius-evolution step preserves `explosionInv`. -/
theorem evolve_preserves_inv (e e' : Explosion) (h : explosionInv e)
    (hev : evolveExplosion e = some e') : explosionInv e' := by
  obtain ⟨hm, hr0, hrb, hexp⟩ := h
  have hg : (0 : ℚ) < EXPLOSION_GROWTH_SPEED := by norm_num [EXPLOSION_GROWTH_SPEED]
  have hd : (0 : ℚ) < EXPLOSION_DECAY_SPEED := by norm_num [EXPLOSION_DECAY_SPEED]
  rw [evolveExplosion] at hev
  by_cases hx : e.isExpanding = true
  · rw [if_pos hx] at hev
    obtain rfl := (Option.some.inj hev).symm
    have hlt : e.radius < e.maxRadius := hexp hx
    refine ⟨hm, ?_, ?_, ?_⟩
    · dsimp only
      nlinarith
    · dsimp only
      nlinarith
    · intro hflag
      dsimp only at hflag ⊢
      exact of_decide_eq_true hflag
  · rw [if_neg hx] at hev
    by_cases hz : e.radius - EXPLOSION_DECAY_SPEED * e.maxRadius ≤ 0
    · rw [if_pos hz] at hev
      exact absurd hev (by simp)
    · rw [if_neg hz] at hev
      obtain rfl := (Option.some.inj hev).symm
      push_neg at hz
      refine ⟨hm, le_of_lt hz, ?_, ?_⟩
      · dsimp only
        nlinarith
      · intro hflag
        dsimp only at hflag
        exact absurd hflag (by simpa using hx)

/-- Every surviving explosion of the explosion step is the evolution of an
input explosion, and every newly pushed one is a secondary explosion. -/
theorem updateExplosions_mem (es : List Explosion) (rs : List Rocket) (sc : Nat) :
    (∀ e' ∈ (updateExplosions es rs sc).1, ∃ e ∈ es, evolveExplosion e = some e') ∧
    (∀ x ∈ (updateExplosions es rs sc).2.1, ∃ p, x = secondaryExplosion p) := by
  induction es with
  | nil => simp [updateExplosions]
  | cons e rest ih =>
    obtain ⟨ih1, ih2⟩ := ih
    simp only [updateExplosions]
    cases hev : evolveExplosion e with
    | none =>
      refine ⟨fun e' h => ?_, ih2⟩
      obtain ⟨e0, he0, hev0⟩ := ih1 e' h
      exact ⟨e0, List.mem_cons_of_mem e he0, hev0⟩
    | some e' =>
      constructor
      · intro x hx
        rcases List.mem_cons.mp hx with rfl | hmem
        · exact ⟨e, List.mem_cons_self e rest, hev⟩
        · obtain ⟨e0, he0, hev0⟩ := ih1 x hmem
          exact ⟨e0, List.mem_cons_of_mem e he0, hev0⟩
      · intro x hx
        rcases List.mem_append.mp hx with hmem | hmem
        · exact ih2 x hmem
        · rw [processRockets_eq] at hmem
          simp only [List.mem_reverse, List.mem_map, List.mem_filter] at hmem
          obtain ⟨r, _, hx⟩ := hmem
          exact ⟨(pullRocket e' r).pos, hx.symm⟩

/-- Claim C4 (amended): the radius of every explosion of a tick's output
lies in `[0, (1 + EXPLOSION_GROWTH_SPEED) * maxRadius)` whenever the
input explosions satisfy that bound (the expansion step can overshoot
`maxRadius` by up to one growth increment — the claimed bound
`[0, maxRadius]` fails, see the counterexample); expansion adds
`EXPLOSION_GROWTH_SPEED * maxRadius` per tick and flips to contraction
exactly once the radius reaches `maxRadius`; and a contracting explosion
whose radius decays to ≤ 0 is removed in that same step. -/
theorem explosion_radius_bounds :
    (∀ e e' : Explosion, explosionInv e → evolveExplosion e = some e' →
      explosionInv e') ∧
    (∀ (spawn : Option Rocket) (g : GameState),
      (∀ e ∈ g.explosions, explosionInv e) →
      ∀ e ∈ (update spawn g).explosions, explosionInv e) ∧
    (∀ e : Explosion, e.isExpanding = true →
      evolveExplosion e = some { e with
        radius := e.radius + EXPLOSION_GROWTH_SPEED * e.maxRadius,
        isExpanding := decide (e.radius + EXPLOSION_GROWTH_SPEED * e.maxRadius <
          e.maxRadius) }) ∧
    (∀ e : Explosion, e.isExpanding = false →
      e.radius - EXPLOSION_DECAY_SPEED * e.maxRadius ≤ 0 →
      evolveExplosion e = none) := by
  refine ⟨evolve_preserves_inv, ?_, ?_, ?_⟩
  · intro spawn g hg e he
    by_cases hst : g.status = GameStatus.PLAYING
    · rw [update, if_pos hst] at he
      have he' : e ∈ (updateExplosions
          (updateMissiles g.playerMissiles
            (updateRockets (g.rockets ++ spawn.toList) g.cities g.batteries
              g.explosions).2.2.2).2
          (updateRockets (g.rockets ++ spawn.toList) g.cities g.batteries
            g.explosions).1 g.score).1 ++
          (updateExplosions
          (updateMissiles g.playerMissiles
            (updateRockets (g.rockets ++ spawn.toList) g.cities g.batteries
              g.explosions).2.2.2).2
          (updateRockets (g.rockets ++ spawn.toList) g.cities g.batteries
            g.explosions).1 g.score).2.1 := he
      rcases List.mem_append.mp he' with h1 | h2
      · obtain ⟨e0, he0, hev⟩ := (updateExplosions_mem _ _ _).1 e h1
        refine evolve_preserves_inv e0 e ?_ hev
        rw [updateMissiles_eq] at he0
        rcases List.mem_append.mp he0 with hm1 | hm2
        · rw [updateRockets_eq] at hm1
          rcases List.mem_append.mp hm1 with hr1 | hr2
          · exact hg e0 hr1
          · simp only [List.mem_reverse, List.mem_map] at hr2
            obtain ⟨r, _, hre⟩ := hr2
            rw [← hre]
            exact explosionInv_impact r.target
        · simp only [List.mem_reverse, List.mem_map] at hm2
          obtain ⟨m, _, hme⟩ := hm2
          rw [← hme]
          exact explosionInv_missile m
      · obtain ⟨p, rfl⟩ := (updateExplosions_mem _ _ _).2 e h2
        exact explosionInv_secondary p
    · rw [update, if_neg hst] at he
      exact hg e he
  · intro e hx
    rw [evolveExplosion, if_pos hx]
  · intro e hx hz
    rw [evolveExplosion, if_neg (by simp [hx]), if_pos hz]

/-- Witness for C4: the explosion of the overshoot start state evolves in
one tick to radius 3.3 and still satisfies the radius invariant. -/
theorem explosion_radius_bounds_witness :
    explosionInv (expExplosion (33/10) true) :=
  explosion_radius_bounds.2.1 none overshootState
    (by
      intro e he
      have : e = impactExplosion { x := 400, y := 300 } := by
        simpa [overshootState] using he
      rw [this]
      exact explosionInv_impact _)
    (expExplosion (33/10) true)
    (by
      rw [show update none overshootState = expState (33/10) true from
        tick_expand 0 (33/10) true (by norm_num [EXPLOSION_GROWTH_SPEED]) (by norm_num)]
      exact List.mem_singleton.mpr rfl)

/-- The first battery of the fresh state, chosen by a click at x = 200. -/
def fireWitnessBattery : Battery :=
  { pos := { x := 40, y := 570 }, missiles := 30, maxMissiles := 30,
    isDestroyed := false }

/-- Claim C8: a Fire command while PLAYING picks a non-destroyed battery
at minimal absolute horizontal distance from the click x; with no alive
battery the whole state is unchanged; a non-gravity shot appends exactly
the three spread missiles (targets offset -25, 0, +25 on x), and a
gravity shot appends exactly one missile flagged as a gravity bomb aimed
at the exact click point. -/
theorem fire_command_characterisation (g : GameState) (x y : Rat) (isGravity : Bool)
    (hst : g.status = GameStatus.PLAYING) :
    ((∀ b ∈ g.batteries, b.isDestroyed) → handleCanvasClick g x y isGravity = g) ∧
    (∀ (i : Nat) (b : Battery), findBattery g.batteries x = some (i, b) →
      ¬ b.isDestroyed ∧
      (∀ b' ∈ g.batteries, ¬ b'.isDestroyed → |b.pos.x - x| ≤ |b'.pos.x - x|) ∧
      (isGravity = false → handleCanvasClick g x y isGravity =
        { g with playerMissiles := g.playerMissiles ++ tripleShot b i x y }) ∧
      (isGravity = true → handleCanvasClick g x y isGravity =
        { g with playerMissiles := g.playerMissiles ++ gravityShot b i x y true }) ∧
      (tripleShot b i x y).length = 3 ∧
      (tripleShot b i x y).map (fun m => m.target) =
        [{ x := x - 25, y := y }, { x := x, y := y }, { x := x + 25, y := y }] ∧
      (∀ m ∈ tripleShot b i x y, m.isGravityBomb = false ∧ m.start = b.pos ∧
        m.originBatteryIndex = i) ∧
      (gravityShot b i x y true).length = 1 ∧
      (∀ m ∈ gravityShot b i x y true, m.isGravityBomb = true ∧
        m.target = { x := x, y := y } ∧ m.start = b.pos ∧
        m.originBatteryIndex = i)) := by
  constructor
  · intro hall
    have hfb : findBattery g.batteries x = none := by
      rw [findBattery]
      exact scanBatteries_all_destroyed x g.batteries 0 none none hall
    rw [handleCanvasClick, if_pos hst, hfb]
  · intro i b hfb
    have hmin := scanBatteries_min x g.batteries 0 none none (Or.inl ⟨rfl, rfl⟩)
    obtain ⟨halive, hopt, _⟩ := hmin.2 (i, b) hfb
    refine ⟨halive, hopt, fun hgv => ?_, fun hgv => ?_, rfl, ?_, ?_, rfl, ?_⟩
    · rw [handleCanvasClick, if_pos hst, hfb, hgv]
      rfl
    · rw [handleCanvasClick, if_pos hst, hfb, hgv]
      rfl
    · simp only [tripleShot, List.map_cons, List.map_nil, List.cons.injEq,
        Point.mk.injEq]
      norm_num [sub_eq_add_neg]
    · intro m hm
      simp only [tripleShot, List.mem_map, List.mem_cons, List.mem_singleton] at hm
      obtain ⟨o, _, rfl⟩ := hm
      exact ⟨rfl, rfl, rfl⟩
    · intro m hm
      rw [List.mem_singleton.mp hm]
      exact ⟨rfl, rfl, rfl, rfl⟩

/-- Witness for C8: a non-gravity click at (200, 300) on the fresh state
fires the spread from the leftmost battery. -/
theorem fire_command_characterisation_witness :
    handleCanvasClick startGame 200 300 false =
      { startGame with playerMissiles :=
          startGame.playerMissiles ++ tripleShot fireWitnessBattery 0 200 300 } :=
  (((fire_command_characterisation startGame 200 300 false rfl).2) 0
    fireWitnessBattery (by
      rw [findBattery]
      norm_num [scanBatteries, startGame, INITIAL_STATE, BATTERY_CONFIGS]
      rw [if_pos (fun m h => nomatch h)]
      norm_num [GAME_HEIGHT, fireWitnessBattery])).2.2.1 rfl

end XXF
